import Mathlib

/-!
Verification of the Web_Asn4 Express/Mongoose CRUD service (src/app.js).

The embedding models the request handlers of app.js as pure functions:
a JavaScript value stored in a movie document is a `JSValue` (number,
string, or null; an absent key is simply not in the association list),
a movie document is an association list of field names to values, and
the two stores are explicit lists threaded through each handler.  The
document store adapter (Mongoose/MongoDB) is modelled by list operations
with MongoDB first-match semantics: `findOne`/`findOneAndUpdate`/`deleteOne`
act on the first document matching the filter, in natural order.
-/

namespace WebAsn4

/-- A JavaScript value as stored in a movie document: a number (modelled
exactly as a rational, adequate for the decimal numerals the app handles),
a string, or null.  An absent field is represented by absence from the
association list, mirroring `undefined`. -/
inductive JSValue where
  | num (q : Rat)
  | str (s : String)
  | jnull
  deriving DecidableEq, Repr

/-- A raw movie document: an association list of field names to values
(the movie schema has `strict: false`, so arbitrary extra fields occur). -/
abbrev Doc := List (String × JSValue)

/-- `obj[k]` on a document: the value of the first binding of `k`,
or `none` for `undefined`. -/
def getField (d : Doc) (k : String) : Option JSValue :=
  (List.find? (fun p => p.1 == k) d).map (fun p => p.2)

/-- The WhiteSpace and LineTerminator characters JS trims around strings
and numeric literals: space, tab, vertical tab, form feed, the line
terminators, NBSP, BOM and the Unicode space separators. -/
def jsWhitespace (c : Char) : Bool :=
  c = ' ' ∨ c = '\t' ∨ c = '\n' ∨ c = '\r' ∨
  c.toNat = 0x0B ∨ c.toNat = 0x0C ∨ c.toNat = 0xA0 ∨ c.toNat = 0xFEFF ∨
  c.toNat = 0x1680 ∨ (0x2000 ≤ c.toNat ∧ c.toNat ≤ 0x200A) ∨
  c.toNat = 0x2028 ∨ c.toNat = 0x2029 ∨ c.toNat = 0x202F ∨
  c.toNat = 0x205F ∨ c.toNat = 0x3000

/-- Strip leading and trailing JS whitespace. -/
def trimChars (l : List Char) : List Char :=
  ((l.dropWhile jsWhitespace).reverse.dropWhile jsWhitespace).reverse

/-- JS `String.prototype.trim()`. -/
def jsTrim (s : String) : String := ⟨trimChars s.data⟩

/-- Split a character list on a separator character (semantics of JS
`split`: the empty list yields one empty chunk). -/
def splitOnChar (sep : Char) : List Char → List (List Char)
  | [] => [[]]
  | c :: rest =>
    let r := splitOnChar sep rest
    if c = sep then [] :: r
    else
      match r with
      | [] => [[c]]
      | h :: t => (c :: h) :: t

/-- Value of one digit in base `b` (hex digits in either case), `none`
for an invalid digit. -/
def digitValBase (b : Nat) (c : Char) : Option Nat :=
  let v :=
    if '0' ≤ c ∧ c ≤ '9' then some (c.toNat - 48)
    else if 'a' ≤ c ∧ c ≤ 'f' then some (c.toNat - 87)
    else if 'A' ≤ c ∧ c ≤ 'F' then some (c.toNat - 55)
    else none
  match v with
  | some d => if d < b then some d else none
  | none => none

/-- Value of a non-empty digit string in base `b`, `none` when empty or
containing an invalid digit. -/
def digitsValBase (b : Nat) (l : List Char) : Option Nat :=
  if l.isEmpty then none
  else
    l.foldl
      (fun acc c =>
        match acc, digitValBase b c with
        | some a, some d => some (a * b + d)
        | _, _ => none)
      (some 0)

/-- A JS `Number()` result short of `NaN`.  JS numbers are IEEE-754
doubles; the model idealizes every finite double as an exact rational —
the same idealization `JSValue.num` uses for stored numeric fields, so
coerced and stored numbers live in one exact domain and double rounding
is not modelled — and keeps the two infinities, which `Number` yields
for `Infinity` literals and which no modelled stored value equals. -/
inductive JSNumber where
  | finite (q : Rat)
  | posInf
  | negInf
  deriving DecidableEq, Repr

/-- The exact value `± mant · 10 ^ (ex − flen)` of a parsed decimal
mantissa with `flen` fraction digits and exponent `ex`. -/
def decValue (neg : Bool) (mant : Nat) (flen : Nat) (ex : Int) : Rat :=
  let e : Int := ex - (flen : Int)
  let sgn : Int := if neg then -1 else 1
  if 0 ≤ e then mkRat (sgn * ((mant * 10 ^ e.toNat : Nat) : Int)) 1
  else mkRat (sgn * (mant : Int)) (10 ^ (-e).toNat)

/-- ExponentPart digits: an optional sign, then decimal digits. -/
def parseExponent (l : List Char) : Option Int :=
  match l with
  | '+' :: rest => (digitsValBase 10 rest).map (fun n => (n : Int))
  | '-' :: rest => (digitsValBase 10 rest).map (fun n => -(n : Int))
  | _ => (digitsValBase 10 l).map (fun n => (n : Int))

/-- A decimal mantissa — `digits`, `digits.digits`, `.digits` or
`digits.` — with the already-parsed exponent applied. -/
def parseMantissa (m : List Char) (neg : Bool) (ex : Int) : Option JSNumber :=
  match splitOnChar '.' m with
  | [a] =>
    (digitsValBase 10 a).map (fun n => JSNumber.finite (decValue neg n 0 ex))
  | [a, b] =>
    if a.isEmpty && b.isEmpty then none
    else
      match (if a.isEmpty then some 0 else digitsValBase 10 a),
            (if b.isEmpty then some 0 else digitsValBase 10 b) with
      | some na, some nb =>
        some (JSNumber.finite (decValue neg (na * 10 ^ b.length + nb) b.length ex))
      | _, _ => none
  | _ => none

/-- StrUnsignedDecimalLiteral: `Infinity`, or a decimal mantissa with an
optional `e`/`E` exponent part. -/
def parseUnsignedDecimal (l : List Char) (neg : Bool) : Option JSNumber :=
  if l = ['I', 'n', 'f', 'i', 'n', 'i', 't', 'y'] then
    some (if neg then JSNumber.negInf else JSNumber.posInf)
  else
    match splitOnChar 'e' (l.map (fun c => if c = 'E' then 'e' else c)) with
    | [m] => parseMantissa m neg 0
    | [m, e] =>
      match parseExponent e with
      | some ex => parseMantissa m neg ex
      | none => none
    | _ => none

/-- StrDecimalLiteral: an optionally signed unsigned decimal literal. -/
def parseSignedDecimal (l : List Char) : Option JSNumber :=
  match l with
  | '+' :: rest => parseUnsignedDecimal rest false
  | '-' :: rest => parseUnsignedDecimal rest true
  | _ => parseUnsignedDecimal l false

/-- JS `Number(s)` on a string (ES StringToNumber): whitespace-trimmed;
the empty string gives `0`; an unsigned `0x`/`0o`/`0b` integer literal;
otherwise an optionally signed decimal literal (`Infinity`, or digits
with optional fraction and exponent).  `none` stands for `NaN`; values
are exact rationals, see `JSNumber`. -/
def jsToNumber (s : String) : Option JSNumber :=
  match trimChars s.data with
  | [] => some (JSNumber.finite 0)
  | '0' :: x :: rest =>
    if x = 'x' ∨ x = 'X' then
      (digitsValBase 16 rest).map (fun n => JSNumber.finite (mkRat (n : Int) 1))
    else if x = 'o' ∨ x = 'O' then
      (digitsValBase 8 rest).map (fun n => JSNumber.finite (mkRat (n : Int) 1))
    else if x = 'b' ∨ x = 'B' then
      (digitsValBase 2 rest).map (fun n => JSNumber.finite (mkRat (n : Int) 1))
    else parseSignedDecimal ('0' :: x :: rest)
  | l => parseSignedDecimal l

/-- Truthiness of an optional query/body string parameter: present and
non-empty (the only falsy string is `""`). -/
def truthy : Option String → Bool
  | some s => s != ""
  | none => false

/-- The string value of an optional parameter (only used where `truthy`
already holds). -/
def getS (o : Option String) : String := o.getD ""

/-! ### Field normalizer (home route, app.js `pick`) -/

/-- `obj[n] != null` in JS: the field is present and its value is not null
(`!=` also rules out `undefined`). -/
def isPresent (d : Doc) (n : String) : Bool :=
  match getField d n with
  | some v => decide (v ≠ JSValue.jnull)
  | none => false

/-- app.js `pick`: `names.find(n => obj[n] != null) ? obj[names.find(n => obj[n] != null)] : fb`.
The JS ternary tests the truthiness of the found NAME, so a found name
`""` (never in the alias lists) would still yield the fallback. -/
def pick (obj : Doc) (names : List String) (fb : JSValue) : JSValue :=
  match List.find? (isPresent obj) names with
  | some n => if n = "" then fb else (getField obj n).getD JSValue.jnull
  | none => fb

/-- Candidate field names for the display title, in scan order. -/
def titleAliases : List String :=
  ["movie_title", "title", "Title", "name", "Name", "MovieTitle"]

/-- Candidate field names for the external id, in scan order. -/
def idAliases : List String :=
  ["movie_id", "movieId", "movieid", "MovieID", "id", "Id", "ID"]

/-- Candidate field names for the release info, in scan order. -/
def releasedAliases : List String :=
  ["Released", "released", "release_year", "releaseYear", "year", "Year",
   "ReleaseDate", "release_date"]

/-- The normalized display view of a movie produced by the home route. -/
structure NormalizedMovie where
  _id : Option String
  movie_title : JSValue
  movie_id : JSValue
  Released : JSValue
  deriving DecidableEq, Repr

/-- `d._id?.toString()`: absent or null gives `undefined`, otherwise the
string rendering of the value. -/
def idToStr (d : Doc) : Option String :=
  match getField d "_id" with
  | some (JSValue.str s) => some s
  | some (JSValue.num q) => some (toString q)
  | some JSValue.jnull => none
  | none => none

/-- The per-document normalization performed inside the home route `GET /`. -/
def normalizeMovie (d : Doc) : NormalizedMovie :=
  { _id := idToStr d,
    movie_title := pick d titleAliases (JSValue.str "(no title)"),
    movie_id := pick d idAliases (JSValue.str ""),
    Released := pick d releasedAliases (JSValue.str "") }

/-! ### Flexible identifier matcher (app.js `movieIdFilter`) -/

/-- The filter object `{$or: [{movie_id: Number(movie_id)}, {movie_id: movie_id}]}`:
a numeric branch (`none` when `Number` gave `NaN`) and a string branch. -/
structure MovieIdFilter where
  numBranch : Option JSNumber
  strBranch : String
  deriving DecidableEq, Repr

/-- app.js `movieIdFilter`: builds the two-branch `$or` filter. -/
def movieIdFilter (movie_id : String) : MovieIdFilter :=
  { numBranch := jsToNumber movie_id, strBranch := movie_id }

/-- MongoDB evaluation of the `$or` filter on a document: the stored
`movie_id` equals the numeric branch as a number, or the string branch as
a string (Mongo equality is type-sensitive between numbers and strings,
and a missing field matches neither non-null branch).  Per the data
model, a stored `movie_id` is absent, a finite number or a string, so a
`NaN` or infinite coercion leaves the numeric branch matching nothing. -/
def matchesMovieIdFilter (f : MovieIdFilter) (d : Doc) : Bool :=
  (match f.numBranch, getField d "movie_id" with
   | some (JSNumber.finite n), some (JSValue.num m) => decide (n = m)
   | _, _ => false)
  ||
  (match getField d "movie_id" with
   | some (JSValue.str s) => decide (s = f.strBranch)
   | _ => false)

/-- The filter chosen by the update/delete handlers:
`id ? { _id: id } : movieIdFilter(movie_id)`. -/
def movieTargetFilter (id movie_id : Option String) : Doc → Bool :=
  fun d =>
    if truthy id then decide (getField d "_id" = some (JSValue.str (getS id)))
    else matchesMovieIdFilter (movieIdFilter (getS movie_id)) d

/-- `findById`: first document whose `_id` equals the supplied string. -/
def findById (docs : List Doc) (i : String) : Option Doc :=
  List.find? (fun d => decide (getField d "_id" = some (JSValue.str i))) docs

/-- The `GET /api/movies/find` title filter
`{$or: [{movie_title: title}, {title}]}`. -/
def titleFilter (t : String) (d : Doc) : Bool :=
  decide (getField d "movie_title" = some (JSValue.str t)) ||
  decide (getField d "title" = some (JSValue.str t))

/-! ### Store write primitives (MongoDB first-match semantics) -/

/-- Index of the first element matching a filter. -/
def firstMatchIdx (f : α → Bool) : List α → Option Nat
  | [] => none
  | a :: rest => if f a then some 0 else (firstMatchIdx f rest).map (· + 1)

/-- `findOneAndUpdate(filter, upd, {new: true})`: applies `upd` to the
first match only, returning the updated document and the new store. -/
def findOneAndUpdateSet (f : Doc → Bool) (upd : Doc → Doc) :
    List Doc → Option Doc × List Doc
  | [] => (none, [])
  | d :: rest =>
    if f d then (some (upd d), upd d :: rest)
    else
      let r := findOneAndUpdateSet f upd rest
      (r.1, d :: r.2)

/-- `deleteOne(filter)`: removes the first match only, returning the
`deletedCount` and the new store. -/
def deleteOneFirst (f : α → Bool) : List α → Nat × List α
  | [] => (0, [])
  | a :: rest =>
    if f a then (1, rest)
    else
      let r := deleteOneFirst f rest
      (r.1, a :: r.2)

/-- Overwrite a field (first binding) or append it. -/
def setField (d : Doc) (k : String) (v : JSValue) : Doc :=
  if (List.find? (fun p => p.1 == k) d).isSome then
    d.map (fun p => if p.1 == k then (k, v) else p)
  else d ++ [(k, v)]

/-- The `$set {movie_title, Released}` document applied by the update
routes; Mongoose strips `undefined` values from an update, so only the
supplied fields are set. -/
def applySet (movie_title Released : Option String) (d : Doc) : Doc :=
  let d1 := match movie_title with
            | some s => setField d "movie_title" (JSValue.str s)
            | none => d
  match Released with
  | some s => setField d1 "Released" (JSValue.str s)
  | none => d1

/-! ### Responses and the error boundary -/

/-- The JSON error body shape produced by the centralized error handler
(and by the inline 503 body); `none` fields are dropped by JSON
serialization, matching `undefined`. -/
structure ErrBody where
  error : Bool
  status : Nat
  message : String
  details : Option (List String) := none
  stack : Option String := none
  deriving DecidableEq, Repr

/-- A thrown error condition: `new Error(message)` with an optionally
assigned `status`, optional `details` (the validator's list of violated
fields), and the runtime-supplied `stack` string. -/
structure ErrCond where
  status : Option Nat := none
  message : String := ""
  details : Option (List String) := none
  stack : String := ""
  deriving DecidableEq, Repr

/-- An employee record after Mongoose casting (`name: String`,
`salary: Number`, `age: Number`), with its store-assigned id. -/
structure EmpDoc where
  _id : Nat
  name : String
  salary : Rat
  age : Rat
  deriving DecidableEq, Repr

/-- Response bodies the handlers produce. -/
inductive Body where
  | docs (l : List Doc)
  | doc (d : Doc)
  | emps (l : List EmpDoc)
  | jsonErr (e : ErrBody)
  | text (s : String)
  | render (view : String) (movie : Option Doc)
  | renderIndex (movies : List NormalizedMovie)
  | redirect (loc : String)
  | okTrue
  deriving DecidableEq, Repr

/-- An HTTP response: status code and body. -/
structure Response where
  status : Nat
  body : Body
  deriving DecidableEq, Repr

/-- A sent success response. -/
def okResp (s : Nat) (b : Body) : Except ErrCond Response :=
  Except.ok { status := s, body := b }

/-- `const err = new Error(msg); err.status = s; throw err`. -/
def errResp (s : Nat) (msg : String) : Except ErrCond Response :=
  Except.error { status := some s, message := msg }

/-- A thrown validation error carrying `details` (the violated fields). -/
def errRespD (s : Nat) (msg : String) (det : List String) : Except ErrCond Response :=
  Except.error { status := some s, message := msg, details := some det }

/-- The inline 503 body sent by `ensureMovieConn` when the movies store
was never configured. -/
def resp503 : Response :=
  { status := 503,
    body := Body.jsonErr
      { error := true, status := 503,
        message := "Movies DB not configured. Set MONGODB_URI_MOVIES in your .env." } }

/-- JS `a || b` on the optional status code (`0` is falsy). -/
def jsOrNat (o : Option Nat) (d : Nat) : Nat :=
  match o with
  | some n => if n = 0 then d else n
  | none => d

/-- JS `a || b` on the message string (`""` is falsy). -/
def jsOrStr (s d : String) : String := if s = "" then d else s

/-- The centralized error handler middleware: translates any uncaught
condition into the JSON error body; `isProd` models
`NODE_ENV === "production"`. -/
def errorHandler (err : ErrCond) (isProd : Bool) : Response :=
  let status := jsOrNat err.status 500
  let isDev := !isProd
  { status := status,
    body := Body.jsonErr
      { error := true, status := status,
        message := jsOrStr err.message "Internal Server Error",
        details := err.details,
        stack := if isDev then some err.stack else none } }

/-- The unknown-route middleware: raises a 404 condition. -/
def notFoundErr (method url : String) : ErrCond :=
  { status := some 404, message := "Route not found: " ++ method ++ " " ++ url }

/-- The response the client finally sees: the handler's own response, or
the error handler's translation of the thrown condition. -/
def finalResponse (r : Except ErrCond Response) (isProd : Bool) : Response :=
  match r with
  | Except.ok resp => resp
  | Except.error e => errorHandler e isProd

/-! ### Validation (express-validator chains) -/

/-- validator.js `isNumeric` (no options): `^[+-]?([0-9]*[.])?[0-9]+$`. -/
def isNumericStr (s : String) : Bool :=
  let l := match s.data with
           | c :: rest => if c = '-' ∨ c = '+' then rest else c :: rest
           | [] => []
  match splitOnChar '.' l with
  | [a] => !a.isEmpty && a.all Char.isDigit
  | [a, b] => a.all Char.isDigit && (!b.isEmpty && b.all Char.isDigit)
  | _ => false

/-- A `POST /api/employees` body (absent field = `undefined`). -/
structure EmpReq where
  name : Option String := none
  salary : Option String := none
  age : Option String := none
  deriving DecidableEq, Repr

/-- `body('name').trim().notEmpty()`: present and non-empty after trim. -/
def empNameOk (req : EmpReq) : Bool :=
  match req.name with
  | some s => jsTrim s != ""
  | none => false

/-- `body('salary').isNumeric()` (a missing field fails). -/
def empSalaryOk (req : EmpReq) : Bool :=
  match req.salary with
  | some s => isNumericStr s
  | none => false

/-- `body('age').isNumeric()` (a missing field fails). -/
def empAgeOk (req : EmpReq) : Bool :=
  match req.age with
  | some s => isNumericStr s
  | none => false

/-- `validationResult(req).isEmpty()` for the employee chain. -/
def empValid (req : EmpReq) : Bool :=
  empNameOk req && empSalaryOk req && empAgeOk req

/-- `errors.array()`, abstracted to the paths of the violated fields,
in validator order. -/
def empValidationErrors (req : EmpReq) : List String :=
  (if empNameOk req then [] else ["name"]) ++
  (if empSalaryOk req then [] else ["salary"]) ++
  (if empAgeOk req then [] else ["age"])

/-- A movie request's query/body parameters (absent = `undefined`). -/
structure MovieReq where
  id : Option String := none
  movie_id : Option String := none
  title : Option String := none
  movie_title : Option String := none
  Released : Option String := none
  deriving DecidableEq, Repr

/-- `body('movie_title').trim().notEmpty()` on the REST movie create:
`notEmpty` judges the trimmed value. -/
def movieTitleOk (req : MovieReq) : Bool :=
  match req.movie_title with
  | some s => jsTrim s != ""
  | none => false

/-- The `trim()` sanitizer in the REST movie create's validator chain
rewrites `req.body.movie_title` before the handler reads it. -/
def sanitizeMovieBody (req : MovieReq) : MovieReq :=
  { req with movie_title := req.movie_title.map jsTrim }

/-- The Mongoose `Number` cast applied to an isNumeric-validated body
value; such values are finite decimal numerals, so the non-finite arms
are unreachable on the validated path. -/
def castNumber (o : Option String) : Rat :=
  match jsToNumber (getS o) with
  | some (JSNumber.finite q) => q
  | _ => 0

/-- The stored employee for a validated create: the `trim()` sanitizer has
rewritten `name`, and Mongoose casts `salary`/`age` with `Number`. -/
def empDocOfBody (newId : Nat) (req : EmpReq) : EmpDoc :=
  { _id := newId,
    name := jsTrim (getS req.name),
    salary := castNumber req.salary,
    age := castNumber req.age }

/-- The document inserted by `Movie.create({movie_id, movie_title, Released})`
plus the store-assigned `_id`; `undefined` fields are omitted
(`movie_id` is `Schema.Types.Mixed`, so a string body value stays a string). -/
def movieDocOfBody (newId : String) (req : MovieReq) : Doc :=
  [("_id", JSValue.str newId)]
  ++ (match req.movie_id with
      | some s => [("movie_id", JSValue.str s)]
      | none => [])
  ++ (match req.movie_title with
      | some s => [("movie_title", JSValue.str s)]
      | none => [])
  ++ (match req.Released with
      | some s => [("Released", JSValue.str s)]
      | none => [])

/-! ### Route handlers

Each movie handler takes the optional movies store (`none` models a
never-configured `Movie`, the case `ensureMovieConn` intercepts with an
inline 503) and returns the handler result, the resulting store, and the
number of store operations it performed.  Creates additionally take the
store-assigned id of the would-be new document as an explicit input. -/

/-- `GET /api/employees`. -/
def apiEmployeesList (emps : List EmpDoc) : Response × List EmpDoc :=
  ({ status := 200, body := Body.emps emps }, emps)

/-- `POST /api/employees`: validate, insert, then respond with the whole
list re-read from the store. -/
def apiEmployeesCreate (emps : List EmpDoc) (newId : Nat) (req : EmpReq) :
    Except ErrCond Response × List EmpDoc :=
  if empValid req then
    let e := empDocOfBody newId req
    (okResp 200 (Body.emps (emps ++ [e])), emps ++ [e])
  else
    (errRespD 400 "Validation failed" (empValidationErrors req), emps)

/-- `DELETE /api/employees/:id`. -/
def apiEmployeesDelete (emps : List EmpDoc) (eid : Nat) :
    Except ErrCond Response × List EmpDoc :=
  let r := deleteOneFirst (fun e => decide (e._id = eid)) emps
  if r.1 = 0 then (errResp 404 "Not found", r.2)
  else (okResp 200 (Body.text "Successfully! Employee has been Deleted."), r.2)

/-- `GET /api/movies`: the whole collection capped by `.limit(200)`. -/
def apiMoviesList (store : Option (List Doc)) :
    Except ErrCond Response × Option (List Doc) × Nat :=
  match store with
  | none => (Except.ok resp503, none, 0)
  | some docs => (okResp 200 (Body.docs (docs.take 200)), some docs, 1)

/-- `GET /api/movies/find?id=|movie_id=|title=`. -/
def apiMoviesFind (store : Option (List Doc)) (req : MovieReq) :
    Except ErrCond Response × Option (List Doc) × Nat :=
  match store with
  | none => (Except.ok resp503, none, 0)
  | some docs =>
    if truthy req.id then
      match findById docs (getS req.id) with
      | some d => (okResp 200 (Body.doc d), some docs, 1)
      | none => (errResp 404 "Not found", some docs, 1)
    else if truthy req.movie_id then
      match List.find? (matchesMovieIdFilter (movieIdFilter (getS req.movie_id))) docs with
      | some d => (okResp 200 (Body.doc d), some docs, 1)
      | none => (errResp 404 "Not found", some docs, 1)
    else if truthy req.title then
      match List.find? (titleFilter (getS req.title)) docs with
      | some d => (okResp 200 (Body.doc d), some docs, 1)
      | none => (errResp 404 "Not found", some docs, 1)
    else (errResp 400 "Provide id or movie_id or title", some docs, 0)

/-- `POST /api/movies`: validated movie create, 201 with the created
document. -/
def apiMoviesCreate (store : Option (List Doc)) (newId : String) (req : MovieReq) :
    Except ErrCond Response × Option (List Doc) × Nat :=
  match store with
  | none => (Except.ok resp503, none, 0)
  | some docs =>
    if movieTitleOk req then
      let d := movieDocOfBody newId (sanitizeMovieBody req)
      (okResp 201 (Body.doc d), some (docs ++ [d]), 1)
    else
      (errRespD 400 "Validation failed" ["movie_title"], some docs, 0)

/-- `PUT /api/movies`: update by internal id or flexible external id. -/
def apiMoviesUpdate (store : Option (List Doc)) (req : MovieReq) :
    Except ErrCond Response × Option (List Doc) × Nat :=
  match store with
  | none => (Except.ok resp503, none, 0)
  | some docs =>
    if !truthy req.id && !truthy req.movie_id then
      (errResp 400 "Provide id or movie_id", some docs, 0)
    else
      let r := findOneAndUpdateSet (movieTargetFilter req.id req.movie_id)
                 (applySet req.movie_title req.Released) docs
      match r.1 with
      | none => (errResp 404 "Not found", some r.2, 1)
      | some u => (okResp 200 (Body.doc u), some r.2, 1)

/-- `DELETE /api/movies`: delete by internal id or flexible external id. -/
def apiMoviesDelete (store : Option (List Doc)) (req : MovieReq) :
    Except ErrCond Response × Option (List Doc) × Nat :=
  match store with
  | none => (Except.ok resp503, none, 0)
  | some docs =>
    if !truthy req.id && !truthy req.movie_id then
      (errResp 400 "Provide id or movie_id", some docs, 0)
    else
      let r := deleteOneFirst (movieTargetFilter req.id req.movie_id) docs
      if r.1 = 0 then (errResp 404 "Not found", some r.2, 1)
      else (okResp 200 Body.okTrue, some r.2, 1)

/-- `GET /`: render the first 50 documents through the normalizer. -/
def uiHome (store : Option (List Doc)) :
    Except ErrCond Response × Option (List Doc) × Nat :=
  match store with
  | none => (Except.ok resp503, none, 0)
  | some docs =>
    (okResp 200 (Body.renderIndex ((docs.take 50).map normalizeMovie)), some docs, 1)

/-- `GET /ui/movie/show?id=|movie_id=`: always renders, with a null movie
when no parameter is supplied or nothing matches. -/
def uiMovieShow (store : Option (List Doc)) (req : MovieReq) :
    Except ErrCond Response × Option (List Doc) × Nat :=
  match store with
  | none => (Except.ok resp503, none, 0)
  | some docs =>
    if truthy req.id then
      (okResp 200 (Body.render "movie-view" (findById docs (getS req.id))), some docs, 1)
    else if truthy req.movie_id then
      (okResp 200 (Body.render "movie-view"
        (List.find? (matchesMovieIdFilter (movieIdFilter (getS req.movie_id))) docs)),
       some docs, 1)
    else (okResp 200 (Body.render "movie-view" none), some docs, 0)

/-- `POST /ui/movie/new`: unvalidated create, then redirect home. -/
def uiMovieNew (store : Option (List Doc)) (newId : String) (req : MovieReq) :
    Except ErrCond Response × Option (List Doc) × Nat :=
  match store with
  | none => (Except.ok resp503, none, 0)
  | some docs =>
    (okResp 302 (Body.redirect "/"), some (docs ++ [movieDocOfBody newId req]), 1)

/-- `POST /ui/movie/update`: like the REST update but renders the view. -/
def uiMovieUpdate (store : Option (List Doc)) (req : MovieReq) :
    Except ErrCond Response × Option (List Doc) × Nat :=
  match store with
  | none => (Except.ok resp503, none, 0)
  | some docs =>
    if !truthy req.id && !truthy req.movie_id then
      (errResp 400 "Provide id or movie_id", some docs, 0)
    else
      let r := findOneAndUpdateSet (movieTargetFilter req.id req.movie_id)
                 (applySet req.movie_title req.Released) docs
      match r.1 with
      | none => (errResp 404 "Not found", some r.2, 1)
      | some u => (okResp 200 (Body.render "movie-view" (some u)), some r.2, 1)

/-- `POST /ui/movie/delete`: like the REST delete but redirects home. -/
def uiMovieDelete (store : Option (List Doc)) (req : MovieReq) :
    Except ErrCond Response × Option (List Doc) × Nat :=
  match store with
  | none => (Except.ok resp503, none, 0)
  | some docs =>
    if !truthy req.id && !truthy req.movie_id then
      (errResp 400 "Provide id or movie_id", some docs, 0)
    else
      let r := deleteOneFirst (movieTargetFilter req.id req.movie_id) docs
      if r.1 = 0 then (errResp 404 "Not found", some r.2, 1)
      else (okResp 302 (Body.redirect "/"), some r.2, 1)

/-! ### Whole-application state -/

/-- The two independent stores: the movies store is `none` when
`MONGODB_URI_MOVIES` was never set. -/
structure AppState where
  movies : Option (List Doc)
  employees : List EmpDoc
  deriving Repr

/-- `PUT /api/movies` lifted to the whole application state. -/
def appPutMovies (st : AppState) (req : MovieReq) :
    Except ErrCond Response × AppState × Nat :=
  let r := apiMoviesUpdate st.movies req
  (r.1, { movies := r.2.1, employees := st.employees }, r.2.2)

/-- `DELETE /api/movies` lifted to the whole application state. -/
def appDeleteMovies (st : AppState) (req : MovieReq) :
    Except ErrCond Response × AppState × Nat :=
  let r := apiMoviesDelete st.movies req
  (r.1, { movies := r.2.1, employees := st.employees }, r.2.2)

/-- `POST /ui/movie/update` lifted to the whole application state. -/
def appUiUpdateMovie (st : AppState) (req : MovieReq) :
    Except ErrCond Response × AppState × Nat :=
  let r := uiMovieUpdate st.movies req
  (r.1, { movies := r.2.1, employees := st.employees }, r.2.2)

/-- `POST /ui/movie/delete` lifted to the whole application state. -/
def appUiDeleteMovie (st : AppState) (req : MovieReq) :
    Except ErrCond Response × AppState × Nat :=
  let r := uiMovieDelete st.movies req
  (r.1, { movies := r.2.1, employees := st.employees }, r.2.2)

/-- `GET /api/movies` lifted to the whole application state. -/
def appGetMovies (st : AppState) :
    Except ErrCond Response × AppState × Nat :=
  let r := apiMoviesList st.movies
  (r.1, { movies := r.2.1, employees := st.employees }, r.2.2)

/-- `GET /api/movies/find` lifted to the whole application state. -/
def appFindMovies (st : AppState) (req : MovieReq) :
    Except ErrCond Response × AppState × Nat :=
  let r := apiMoviesFind st.movies req
  (r.1, { movies := r.2.1, employees := st.employees }, r.2.2)

/-- `GET /ui/movie/show` lifted to the whole application state. -/
def appShowMovie (st : AppState) (req : MovieReq) :
    Except ErrCond Response × AppState × Nat :=
  let r := uiMovieShow st.movies req
  (r.1, { movies := r.2.1, employees := st.employees }, r.2.2)

/-- `GET /` lifted to the whole application state. -/
def appHome (st : AppState) :
    Except ErrCond Response × AppState × Nat :=
  let r := uiHome st.movies
  (r.1, { movies := r.2.1, employees := st.employees }, r.2.2)

/-- The frame property of a single-match update: when no stored document
matches the filter nothing changes, and when the first match is at index
`i` the store keeps its length and every other position is unchanged. -/
def SingleMatchFrame (docs docs2 : List Doc) (f : Doc → Bool) : Prop :=
  (firstMatchIdx f docs = none → docs2 = docs) ∧
  ∀ i, firstMatchIdx f docs = some i →
    docs2.length = docs.length ∧ ∀ j, j ≠ i → docs2[j]? = docs[j]?

/-- The frame property of a single-match delete: when no stored document
matches the filter nothing changes, and when the first match is at index
`i` exactly that position is removed. -/
def SingleMatchErase (docs docs2 : List Doc) (f : Doc → Bool) : Prop :=
  (firstMatchIdx f docs = none → docs2 = docs) ∧
  ∀ i, firstMatchIdx f docs = some i → docs2 = docs.eraseIdx i

/-! ### Lemmas about the store write primitives -/

lemma deleteOneFirst_of_all_false {α : Type} (f : α → Bool) :
    ∀ l : List α, (∀ x ∈ l, f x = false) → deleteOneFirst f l = (0, l) := by
  intro l
  induction l with
  | nil => intro _; rfl
  | cons a rest ih =>
    intro h
    have ha : f a = false := h a (List.mem_cons_self a rest)
    have hr := ih (fun x hx => h x (List.mem_cons_of_mem a hx))
    simp [deleteOneFirst, ha, hr]

lemma deleteOneFirst_of_firstMatchIdx_some {α : Type} (f : α → Bool) :
    ∀ (l : List α) (i : Nat), firstMatchIdx f l = some i →
      deleteOneFirst f l = (1, l.eraseIdx i) := by
  intro l
  induction l with
  | nil => intro i h; simp [firstMatchIdx] at h
  | cons a rest ih =>
    intro i h
    by_cases hf : f a = true
    · simp [firstMatchIdx, hf] at h
      subst h
      simp [deleteOneFirst, hf]
    · simp only [Bool.not_eq_true] at hf
      simp [firstMatchIdx, hf] at h
      rcases h with ⟨i', hi', rfl⟩
      have := ih i' hi'
      simp [deleteOneFirst, hf, this]

lemma findOneAndUpdateSet_of_firstMatchIdx_none (f : Doc → Bool) (upd : Doc → Doc) :
    ∀ l : List Doc, firstMatchIdx f l = none →
      findOneAndUpdateSet f upd l = (none, l) := by
  intro l
  induction l with
  | nil => intro _; rfl
  | cons d rest ih =>
    intro h
    by_cases hf : f d = true
    · simp [firstMatchIdx, hf] at h
    · simp only [Bool.not_eq_true] at hf
      simp [firstMatchIdx, hf] at h
      have := ih h
      simp [findOneAndUpdateSet, hf, this]

lemma findOneAndUpdateSet_length (f : Doc → Bool) (upd : Doc → Doc) :
    ∀ l : List Doc, ((findOneAndUpdateSet f upd l).2).length = l.length := by
  intro l
  induction l with
  | nil => rfl
  | cons d rest ih =>
    by_cases hf : f d = true
    · simp [findOneAndUpdateSet, hf]
    · simp only [Bool.not_eq_true] at hf
      simp [findOneAndUpdateSet, hf, ih]

lemma findOneAndUpdateSet_frame (f : Doc → Bool) (upd : Doc → Doc) :
    ∀ (l : List Doc) (i : Nat), firstMatchIdx f l = some i →
      ∀ j, j ≠ i → ((findOneAndUpdateSet f upd l).2)[j]? = l[j]? := by
  intro l
  induction l with
  | nil => intro i h; simp [firstMatchIdx] at h
  | cons d rest ih =>
    intro i h j hj
    by_cases hf : f d = true
    · simp [firstMatchIdx, hf] at h
      subst h
      cases j with
      | zero => exact absurd rfl hj
      | succ k => simp [findOneAndUpdateSet, hf]
    · simp only [Bool.not_eq_true] at hf
      simp [firstMatchIdx, hf] at h
      rcases h with ⟨i', hi', rfl⟩
      cases j with
      | zero => simp [findOneAndUpdateSet, hf]
      | succ k =>
        have hk : k ≠ i' := by omega
        have := ih i' hi' k hk
        simp [findOneAndUpdateSet, hf, this]

lemma firstMatchIdx_eq_none_iff {α : Type} (f : α → Bool) :
    ∀ l : List α, firstMatchIdx f l = none ↔ ∀ x ∈ l, f x = false := by
  intro l
  induction l with
  | nil => simp [firstMatchIdx]
  | cons a rest ih =>
    by_cases hf : f a = true
    · simp [firstMatchIdx, hf]
    · simp only [Bool.not_eq_true] at hf
      simp [firstMatchIdx, hf, ih]

lemma findOneAndUpdateSet_fst_none (f : Doc → Bool) (upd : Doc → Doc) :
    ∀ l : List Doc, (findOneAndUpdateSet f upd l).1 = none ↔ firstMatchIdx f l = none := by
  intro l
  induction l with
  | nil => simp [findOneAndUpdateSet, firstMatchIdx]
  | cons d rest ih =>
    by_cases hf : f d = true
    · simp [findOneAndUpdateSet, firstMatchIdx, hf]
    · simp only [Bool.not_eq_true] at hf
      simp [findOneAndUpdateSet, firstMatchIdx, hf, ih]

lemma apiMoviesList_state (store : Option (List Doc)) :
    (apiMoviesList store).2.1 = store := by
  cases store <;> rfl

lemma apiMoviesFind_state (store : Option (List Doc)) (req : MovieReq) :
    (apiMoviesFind store req).2.1 = store := by
  cases store with
  | none => rfl
  | some docs =>
    simp only [apiMoviesFind]
    repeat' split
    all_goals rfl

lemma uiMovieShow_state (store : Option (List Doc)) (req : MovieReq) :
    (uiMovieShow store req).2.1 = store := by
  cases store with
  | none => rfl
  | some docs =>
    simp only [uiMovieShow]
    repeat' split
    all_goals rfl

lemma uiHome_state (store : Option (List Doc)) :
    (uiHome store).2.1 = store := by
  cases store <;> rfl

lemma movieTargetFilter_of_movie_id (id mid : Option String) (hid : truthy id = false) :
    movieTargetFilter id mid = matchesMovieIdFilter (movieIdFilter (getS mid)) := by
  funext d
  simp [movieTargetFilter, hid]

/-! ### Normalizer lemmas -/

lemma pick_spec (d : Doc) (names : List String) (fb : JSValue)
    (hne : ∀ x ∈ names, x ≠ "") :
    (∀ n, List.find? (isPresent d) names = some n →
       ∃ v, getField d n = some v ∧ v ≠ JSValue.jnull ∧ pick d names fb = v)
  ∧ (List.find? (isPresent d) names = none → pick d names fb = fb) := by
  constructor
  · intro n h
    have hp : isPresent d n = true := List.find?_some h
    have hmem : n ∈ names := List.mem_of_find?_eq_some h
    have hne' : n ≠ "" := hne n hmem
    unfold isPresent at hp
    rcases hg : getField d n with _ | v
    · rw [hg] at hp; simp at hp
    · rw [hg] at hp
      simp at hp
      refine ⟨v, rfl, hp, ?_⟩
      unfold pick
      rw [h]
      show (if n = "" then fb else (getField d n).getD JSValue.jnull) = v
      rw [if_neg hne', hg]
      rfl
  · intro h
    unfold pick
    rw [h]

/-! ### Claim theorems -/

/-- C1: the normalizer produces each display attribute by scanning the
record's fields in the fixed order of the alias lists, taking the first
non-null (and defined) value, with fallbacks `"(no title)"` / `""` / `""`
when no candidate carries a value; a record with only `title` and `year`
normalizes to that title and release value, an empty record to
`"(no title)"`; the normalizer is a pure total function of the record. -/
theorem claim_C1_normalizer (d : Doc) :
    titleAliases = ["movie_title", "title", "Title", "name", "Name", "MovieTitle"]
  ∧ idAliases = ["movie_id", "movieId", "movieid", "MovieID", "id", "Id", "ID"]
  ∧ releasedAliases = ["Released", "released", "release_year", "releaseYear", "year",
      "Year", "ReleaseDate", "release_date"]
  ∧ (∀ n, List.find? (isPresent d) titleAliases = some n →
       ∃ v, getField d n = some v ∧ v ≠ JSValue.jnull ∧ (normalizeMovie d).movie_title = v)
  ∧ (List.find? (isPresent d) titleAliases = none →
       (normalizeMovie d).movie_title = JSValue.str "(no title)")
  ∧ (∀ n, List.find? (isPresent d) idAliases = some n →
       ∃ v, getField d n = some v ∧ v ≠ JSValue.jnull ∧ (normalizeMovie d).movie_id = v)
  ∧ (List.find? (isPresent d) idAliases = none →
       (normalizeMovie d).movie_id = JSValue.str "")
  ∧ (∀ n, List.find? (isPresent d) releasedAliases = some n →
       ∃ v, getField d n = some v ∧ v ≠ JSValue.jnull ∧ (normalizeMovie d).Released = v)
  ∧ (List.find? (isPresent d) releasedAliases = none →
       (normalizeMovie d).Released = JSValue.str "")
  ∧ (∀ t y, t ≠ JSValue.jnull → y ≠ JSValue.jnull →
       (normalizeMovie [("title", t), ("year", y)]).movie_title = t
       ∧ (normalizeMovie [("title", t), ("year", y)]).Released = y)
  ∧ (normalizeMovie []).movie_title = JSValue.str "(no title)" := by
  refine ⟨rfl, rfl, rfl,
    (pick_spec d titleAliases _ (by decide)).1,
    (pick_spec d titleAliases _ (by decide)).2,
    (pick_spec d idAliases _ (by decide)).1,
    (pick_spec d idAliases _ (by decide)).2,
    (pick_spec d releasedAliases _ (by decide)).1,
    (pick_spec d releasedAliases _ (by decide)).2,
    ?_, rfl⟩
  intro t y ht hy
  cases t <;> cases y <;>
    first
      | exact absurd rfl ht
      | exact absurd rfl hy
      | exact ⟨rfl, rfl⟩

/-- C1 witness: the normalizer evaluated at the two spec records. -/
theorem claim_C1_normalizer_witness :
    ((normalizeMovie [("title", JSValue.str "Up"), ("year", JSValue.num 2009)]).movie_title
        = JSValue.str "Up"
     ∧ (normalizeMovie [("title", JSValue.str "Up"), ("year", JSValue.num 2009)]).Released
        = JSValue.num 2009)
  ∧ (normalizeMovie []).movie_title = JSValue.str "(no title)" :=
  ⟨(claim_C1_normalizer
      [("title", JSValue.str "Up"), ("year", JSValue.num 2009)]).2.2.2.2.2.2.2.2.2.1
      (JSValue.str "Up") (JSValue.num 2009) (by decide) (by decide),
   (claim_C1_normalizer []).2.2.2.2.2.2.2.2.2.2⟩

/-- C2: the flexible identifier matcher matches a stored document exactly
when its `movie_id` equals `Number(rawValue)` as a number or `rawValue`
unchanged as a string; `buildIdFilter("42")` matches both
representations, and the hex and exponent coercion forms `"0x2A"` and
`"1e3"` match their numeric values; for a `rawValue` that is not
parseable as a number the numeric branch never matches and the matcher
raises no error (it is total). -/
theorem claim_C2_movieIdFilter (raw : String) (d : Doc) :
    (matchesMovieIdFilter (movieIdFilter raw) d = true ↔
      ((∃ n, jsToNumber raw = some (JSNumber.finite n)
           ∧ getField d "movie_id" = some (JSValue.num n)) ∨
        getField d "movie_id" = some (JSValue.str raw)))
  ∧ (jsToNumber raw = none →
      (matchesMovieIdFilter (movieIdFilter raw) d = true ↔
        getField d "movie_id" = some (JSValue.str raw)))
  ∧ matchesMovieIdFilter (movieIdFilter "42") [("movie_id", JSValue.num 42)] = true
  ∧ matchesMovieIdFilter (movieIdFilter "42") [("movie_id", JSValue.str "42")] = true
  ∧ matchesMovieIdFilter (movieIdFilter "0x2A") [("movie_id", JSValue.num 42)] = true
  ∧ matchesMovieIdFilter (movieIdFilter "1e3") [("movie_id", JSValue.num 1000)] = true := by
  have hmain : matchesMovieIdFilter (movieIdFilter raw) d = true ↔
      ((∃ n, jsToNumber raw = some (JSNumber.finite n)
           ∧ getField d "movie_id" = some (JSValue.num n)) ∨
        getField d "movie_id" = some (JSValue.str raw)) := by
    simp only [matchesMovieIdFilter, movieIdFilter]
    rcases h1 : jsToNumber raw with _ | jn
    · rcases h2 : getField d "movie_id" with _ | v
      · simp
      · cases v <;> simp
    · cases jn with
      | finite n =>
        rcases h2 : getField d "movie_id" with _ | v
        · simp
        · cases v with
          | num m => simp; exact eq_comm
          | str s => simp
          | jnull => simp
      | posInf =>
        rcases h2 : getField d "movie_id" with _ | v
        · simp
        · cases v <;> simp
      | negInf =>
        rcases h2 : getField d "movie_id" with _ | v
        · simp
        · cases v <;> simp
  refine ⟨hmain, ?_, by decide, by decide, by decide, by decide⟩
  intro h
  rw [hmain]
  simp [h]

/-- C2 witness: for the unparseable identifier `"abc"` only the string
branch can decide a match. -/
theorem claim_C2_movieIdFilter_witness :
    matchesMovieIdFilter (movieIdFilter "abc") [("movie_id", JSValue.num 7)] = true ↔
      getField [("movie_id", JSValue.num 7)] "movie_id" = some (JSValue.str "abc") :=
  (claim_C2_movieIdFilter "abc" [("movie_id", JSValue.num 7)]).2.1 (by decide)

/-- C5: the movie list route returns at most 200 records (`.limit(200)`),
while the employee list route returns the entire store unbounded. -/
theorem claim_C5_list_bounds (docs : List Doc) (emps : List EmpDoc) :
    apiMoviesList (some docs) = (okResp 200 (Body.docs (docs.take 200)), some docs, 1)
  ∧ (docs.take 200).length ≤ 200
  ∧ apiEmployeesList emps = ({ status := 200, body := Body.emps emps }, emps) := by
  refine ⟨rfl, ?_, rfl⟩
  exact List.length_take_le 200 docs

/-- C10: a successful employee create responds 200 with the full employee
list including the new record; a successful movie create responds 201
with only the created record. -/
theorem claim_C10_create_responses (emps : List EmpDoc) (newEid : Nat) (ereq : EmpReq)
    (docs : List Doc) (newMid : String) (mreq : MovieReq) :
    (empValid ereq = true →
       apiEmployeesCreate emps newEid ereq =
         (okResp 200 (Body.emps (emps ++ [empDocOfBody newEid ereq])),
          emps ++ [empDocOfBody newEid ereq]))
  ∧ (movieTitleOk mreq = true →
       apiMoviesCreate (some docs) newMid mreq =
         (okResp 201 (Body.doc (movieDocOfBody newMid (sanitizeMovieBody mreq))),
          some (docs ++ [movieDocOfBody newMid (sanitizeMovieBody mreq)]), 1)) := by
  constructor
  · intro h; simp [apiEmployeesCreate, h]
  · intro h; simp [apiMoviesCreate, h]

/-- C3: every movie-resource operation, REST and UI, short-circuits with
the inline 503 response and zero store operations when the movies store
was never configured; with a configured store the 503 branch is never
taken (the final status of every such operation differs from 503). -/
theorem claim_C3_store_unconfigured (req : MovieReq) (newId : String)
    (docs : List Doc) (isProd : Bool) :
    apiMoviesList none = (Except.ok resp503, none, 0)
  ∧ apiMoviesFind none req = (Except.ok resp503, none, 0)
  ∧ apiMoviesCreate none newId req = (Except.ok resp503, none, 0)
  ∧ apiMoviesUpdate none req = (Except.ok resp503, none, 0)
  ∧ apiMoviesDelete none req = (Except.ok resp503, none, 0)
  ∧ uiHome none = (Except.ok resp503, none, 0)
  ∧ uiMovieShow none req = (Except.ok resp503, none, 0)
  ∧ uiMovieNew none newId req = (Except.ok resp503, none, 0)
  ∧ uiMovieUpdate none req = (Except.ok resp503, none, 0)
  ∧ uiMovieDelete none req = (Except.ok resp503, none, 0)
  ∧ resp503.status = 503
  ∧ (finalResponse (apiMoviesList (some docs)).1 isProd).status ≠ 503
  ∧ (finalResponse (apiMoviesFind (some docs) req).1 isProd).status ≠ 503
  ∧ (finalResponse (apiMoviesCreate (some docs) newId req).1 isProd).status ≠ 503
  ∧ (finalResponse (apiMoviesUpdate (some docs) req).1 isProd).status ≠ 503
  ∧ (finalResponse (apiMoviesDelete (some docs) req).1 isProd).status ≠ 503
  ∧ (finalResponse (uiHome (some docs)).1 isProd).status ≠ 503
  ∧ (finalResponse (uiMovieShow (some docs) req).1 isProd).status ≠ 503
  ∧ (finalResponse (uiMovieNew (some docs) newId req).1 isProd).status ≠ 503
  ∧ (finalResponse (uiMovieUpdate (some docs) req).1 isProd).status ≠ 503
  ∧ (finalResponse (uiMovieDelete (some docs) req).1 isProd).status ≠ 503 := by
  refine ⟨rfl, rfl, rfl, rfl, rfl, rfl, rfl, rfl, rfl, rfl, rfl,
    ?_, ?_, ?_, ?_, ?_, ?_, ?_, ?_, ?_, ?_⟩ <;>
  · simp only [apiMoviesList, apiMoviesFind, apiMoviesCreate, apiMoviesUpdate,
      apiMoviesDelete, uiHome, uiMovieShow, uiMovieNew, uiMovieUpdate, uiMovieDelete]
    repeat' split
    all_goals
      simp [finalResponse, okResp, errResp, errRespD, errorHandler, jsOrNat]

/-- C4: a movie update or delete addressed by the flexible external
identifier modifies or removes at most the first matching record, on the
REST and UI paths alike; every other record in the movies store and the
whole employees store are unchanged; list and get operations change no
record at all. -/
theorem claim_C4_single_match (st : AppState) (docs : List Doc) (req : MovieReq)
    (hst : st.movies = some docs) (hid : truthy req.id = false)
    (hmid : truthy req.movie_id = true) :
    ((appPutMovies st req).2.1.employees = st.employees
      ∧ ∃ docs2, (appPutMovies st req).2.1.movies = some docs2
          ∧ SingleMatchFrame docs docs2
              (matchesMovieIdFilter (movieIdFilter (getS req.movie_id))))
  ∧ ((appUiUpdateMovie st req).2.1.employees = st.employees
      ∧ ∃ docs2, (appUiUpdateMovie st req).2.1.movies = some docs2
          ∧ SingleMatchFrame docs docs2
              (matchesMovieIdFilter (movieIdFilter (getS req.movie_id))))
  ∧ ((appDeleteMovies st req).2.1.employees = st.employees
      ∧ ∃ docs2, (appDeleteMovies st req).2.1.movies = some docs2
          ∧ SingleMatchErase docs docs2
              (matchesMovieIdFilter (movieIdFilter (getS req.movie_id))))
  ∧ ((appUiDeleteMovie st req).2.1.employees = st.employees
      ∧ ∃ docs2, (appUiDeleteMovie st req).2.1.movies = some docs2
          ∧ SingleMatchErase docs docs2
              (matchesMovieIdFilter (movieIdFilter (getS req.movie_id))))
  ∧ (appGetMovies st).2.1 = st
  ∧ (appFindMovies st req).2.1 = st
  ∧ (appShowMovie st req).2.1 = st
  ∧ (appHome st).2.1 = st := by
  have hfil := movieTargetFilter_of_movie_id req.id req.movie_id hid
  have hframe : ∀ upd, SingleMatchFrame docs
      (findOneAndUpdateSet (matchesMovieIdFilter (movieIdFilter (getS req.movie_id))) upd docs).2
      (matchesMovieIdFilter (movieIdFilter (getS req.movie_id))) := by
    intro upd
    refine ⟨fun h => ?_, fun i hi => ⟨findOneAndUpdateSet_length _ _ docs, fun j hj =>
      findOneAndUpdateSet_frame _ _ docs i hi j hj⟩⟩
    rw [findOneAndUpdateSet_of_firstMatchIdx_none _ _ docs h]
  have herase : SingleMatchErase docs
      (deleteOneFirst (matchesMovieIdFilter (movieIdFilter (getS req.movie_id))) docs).2
      (matchesMovieIdFilter (movieIdFilter (getS req.movie_id))) := by
    refine ⟨fun h => ?_, fun i hi => ?_⟩
    · rw [deleteOneFirst_of_all_false _ docs ((firstMatchIdx_eq_none_iff _ docs).mp h)]
    · rw [deleteOneFirst_of_firstMatchIdx_some _ docs i hi]
  have hput : (apiMoviesUpdate (some docs) req).2.1 =
      some (findOneAndUpdateSet (matchesMovieIdFilter (movieIdFilter (getS req.movie_id)))
        (applySet req.movie_title req.Released) docs).2 := by
    simp only [apiMoviesUpdate, hid, hmid, hfil, Bool.not_false, Bool.not_true,
      Bool.and_false, Bool.false_eq_true, if_false]
    split <;> rfl
  have hputUi : (uiMovieUpdate (some docs) req).2.1 =
      some (findOneAndUpdateSet (matchesMovieIdFilter (movieIdFilter (getS req.movie_id)))
        (applySet req.movie_title req.Released) docs).2 := by
    simp only [uiMovieUpdate, hid, hmid, hfil, Bool.not_false, Bool.not_true,
      Bool.and_false, Bool.false_eq_true, if_false]
    split <;> rfl
  have hdel : (apiMoviesDelete (some docs) req).2.1 =
      some (deleteOneFirst (matchesMovieIdFilter (movieIdFilter (getS req.movie_id))) docs).2 := by
    simp only [apiMoviesDelete, hid, hmid, hfil, Bool.not_false, Bool.not_true,
      Bool.and_false, Bool.false_eq_true, if_false]
    split <;> rfl
  have hdelUi : (uiMovieDelete (some docs) req).2.1 =
      some (deleteOneFirst (matchesMovieIdFilter (movieIdFilter (getS req.movie_id))) docs).2 := by
    simp only [uiMovieDelete, hid, hmid, hfil, Bool.not_false, Bool.not_true,
      Bool.and_false, Bool.false_eq_true, if_false]
    split <;> rfl
  refine ⟨⟨rfl, ?_⟩, ⟨rfl, ?_⟩, ⟨rfl, ?_⟩, ⟨rfl, ?_⟩, ?_, ?_, ?_, ?_⟩
  · refine ⟨(findOneAndUpdateSet (matchesMovieIdFilter (movieIdFilter (getS req.movie_id)))
        (applySet req.movie_title req.Released) docs).2, ?_,
      hframe (applySet req.movie_title req.Released)⟩
    show (apiMoviesUpdate st.movies req).2.1 = _
    rw [hst, hput]
  · refine ⟨(findOneAndUpdateSet (matchesMovieIdFilter (movieIdFilter (getS req.movie_id)))
        (applySet req.movie_title req.Released) docs).2, ?_,
      hframe (applySet req.movie_title req.Released)⟩
    show (uiMovieUpdate st.movies req).2.1 = _
    rw [hst, hputUi]
  · refine ⟨(deleteOneFirst (matchesMovieIdFilter (movieIdFilter (getS req.movie_id))) docs).2,
      ?_, herase⟩
    show (apiMoviesDelete st.movies req).2.1 = _
    rw [hst, hdel]
  · refine ⟨(deleteOneFirst (matchesMovieIdFilter (movieIdFilter (getS req.movie_id))) docs).2,
      ?_, herase⟩
    show (uiMovieDelete st.movies req).2.1 = _
    rw [hst, hdelUi]
  · show { movies := (apiMoviesList st.movies).2.1, employees := st.employees } = st
    rw [apiMoviesList_state]
  · show { movies := (apiMoviesFind st.movies req).2.1, employees := st.employees } = st
    rw [apiMoviesFind_state]
  · show { movies := (uiMovieShow st.movies req).2.1, employees := st.employees } = st
    rw [uiMovieShow_state]
  · show { movies := (uiHome st.movies).2.1, employees := st.employees } = st
    rw [uiHome_state]

/-- C4 witness: the two legacy records holding the identifier 42 as a
number and as the string form are targeted through `movie_id = "42"`. -/
theorem claim_C4_single_match_witness :
    ((appPutMovies
        { movies := some [[("movie_id", JSValue.num 42)], [("movie_id", JSValue.str "42")]],
          employees := [⟨1, "Ann", 50000, 30⟩] }
        ⟨none, some "42", none, some "New", none⟩).2.1.employees = [⟨1, "Ann", 50000, 30⟩]
      ∧ ∃ docs2, (appPutMovies
            { movies := some [[("movie_id", JSValue.num 42)], [("movie_id", JSValue.str "42")]],
              employees := [⟨1, "Ann", 50000, 30⟩] }
            ⟨none, some "42", none, some "New", none⟩).2.1.movies = some docs2
          ∧ SingleMatchFrame [[("movie_id", JSValue.num 42)], [("movie_id", JSValue.str "42")]]
              docs2 (matchesMovieIdFilter (movieIdFilter "42")))
  ∧ SingleMatchErase [[("movie_id", JSValue.num 42)], [("movie_id", JSValue.str "42")]]
      ((deleteOneFirst (matchesMovieIdFilter (movieIdFilter "42"))
         [[("movie_id", JSValue.num 42)], [("movie_id", JSValue.str "42")]]).2)
      (matchesMovieIdFilter (movieIdFilter "42")) := by
  have h := claim_C4_single_match
    { movies := some [[("movie_id", JSValue.num 42)], [("movie_id", JSValue.str "42")]],
      employees := [⟨1, "Ann", 50000, 30⟩] }
    [[("movie_id", JSValue.num 42)], [("movie_id", JSValue.str "42")]]
    ⟨none, some "42", none, some "New", none⟩ rfl rfl (by decide)
  refine ⟨⟨h.1.1, ?_⟩, ?_⟩
  · rcases h.1.2 with ⟨d2, hd2, hsm⟩
    exact ⟨d2, hd2, hsm⟩
  · rcases h.2.2.1.2 with ⟨d2, hd2, hsm⟩
    have : d2 = (deleteOneFirst (matchesMovieIdFilter (movieIdFilter "42"))
        [[("movie_id", JSValue.num 42)], [("movie_id", JSValue.str "42")]]).2 := by
      have hx : (appDeleteMovies
          { movies := some [[("movie_id", JSValue.num 42)], [("movie_id", JSValue.str "42")]],
            employees := [⟨1, "Ann", 50000, 30⟩] }
          ⟨none, some "42", none, some "New", none⟩).2.1.movies = some d2 := hd2
      rw [show (appDeleteMovies
          { movies := some [[("movie_id", JSValue.num 42)], [("movie_id", JSValue.str "42")]],
            employees := [⟨1, "Ann", 50000, 30⟩] }
          ⟨none, some "42", none, some "New", none⟩).2.1.movies =
          some (deleteOneFirst (matchesMovieIdFilter (movieIdFilter "42"))
            [[("movie_id", JSValue.num 42)], [("movie_id", JSValue.str "42")]]).2 from by decide]
        at hx
      exact (Option.some_inj.mp hx).symm
    rw [this] at hsm
    exact hsm

/-- C6 counterexample: the UI movie create path applies no validation:
a body with no movie_title still creates a record and redirects with
302 instead of failing with a 400 validation error and creating
nothing. -/
theorem claim_C6_counterexample :
    uiMovieNew (some []) "m1" ⟨none, none, none, none, none⟩ =
      (okResp 302 (Body.redirect "/"), some [[("_id", JSValue.str "m1")]], 1)
  ∧ (uiMovieNew (some []) "m1" ⟨none, none, none, none, none⟩).2.1 ≠ some [] := by
  exact ⟨rfl, by decide⟩

/-- C6 (amended): required-field validation guards the REST creates — a
POST /api/employees body missing name, salary or age and a
POST /api/movies body missing movie_title fail with a 400 condition
carrying the structured list of violated fields and create no record —
while the UI movie create path applies no validation and always inserts
the record and redirects. -/
theorem claim_C6_validation (emps : List EmpDoc) (newEid : Nat) (ereq : EmpReq)
    (docs : List Doc) (newMid : String) (mreq : MovieReq)
    (udocs : List Doc) (newUid : String) (ureq : MovieReq) :
    ((ereq.name = none ∨ ereq.salary = none ∨ ereq.age = none) →
       apiEmployeesCreate emps newEid ereq =
         (errRespD 400 "Validation failed" (empValidationErrors ereq), emps)
       ∧ empValidationErrors ereq ≠ [])
  ∧ (mreq.movie_title = none →
       apiMoviesCreate (some docs) newMid mreq =
         (errRespD 400 "Validation failed" ["movie_title"], some docs, 0))
  ∧ uiMovieNew (some udocs) newUid ureq =
      (okResp 302 (Body.redirect "/"), some (udocs ++ [movieDocOfBody newUid ureq]), 1) := by
  refine ⟨?_, ?_, rfl⟩
  · intro h
    have hok : empValid ereq = false := by
      rcases h with h | h | h
      · simp [empValid, empNameOk, h]
      · simp [empValid, empSalaryOk, h]
      · simp [empValid, empAgeOk, h]
    have hne : empValidationErrors ereq ≠ [] := by
      rcases h with h | h | h
      · simp [empValidationErrors, empNameOk, h]
      · simp [empValidationErrors, empSalaryOk, h]
      · simp [empValidationErrors, empAgeOk, h]
    exact ⟨by simp [apiEmployeesCreate, hok], hne⟩
  · intro h
    have hok : movieTitleOk mreq = false := by simp [movieTitleOk, h]
    simp [apiMoviesCreate, hok]

/-- C6 witness: a body missing `name` and a body missing `movie_title`
are rejected on the REST paths. -/
theorem claim_C6_validation_witness :
    (apiEmployeesCreate [] 3 ⟨none, some "50000", some "30"⟩ =
       (errRespD 400 "Validation failed" (empValidationErrors ⟨none, some "50000", some "30"⟩), [])
     ∧ empValidationErrors ⟨none, some "50000", some "30"⟩ ≠ [])
  ∧ apiMoviesCreate (some []) "m2" ⟨none, none, none, none, none⟩ =
      (errRespD 400 "Validation failed" ["movie_title"], some [], 0) :=
  ⟨(claim_C6_validation [] 3 ⟨none, some "50000", some "30"⟩ [] "m2"
      ⟨none, none, none, none, none⟩ [] "u1" ⟨none, none, none, none, none⟩).1 (Or.inl rfl),
   (claim_C6_validation [] 3 ⟨none, some "50000", some "30"⟩ [] "m2"
      ⟨none, none, none, none, none⟩ [] "u1" ⟨none, none, none, none, none⟩).2.1 rfl⟩

/-- C7: a delete whose target does not exist — an employee id matching no
record, or a movie identifier whose filter matches no record — yields the
404 not-found condition, never a 200, and leaves the store unchanged. -/
theorem claim_C7_delete_missing (emps : List EmpDoc) (eid : Nat)
    (docs : List Doc) (req : MovieReq) (isProd : Bool) :
    ((∀ e ∈ emps, e._id ≠ eid) →
       apiEmployeesDelete emps eid = (errResp 404 "Not found", emps)
       ∧ (finalResponse (apiEmployeesDelete emps eid).1 isProd).status = 404
       ∧ (finalResponse (apiEmployeesDelete emps eid).1 isProd).status ≠ 200)
  ∧ ((truthy req.id || truthy req.movie_id) = true →
       (∀ d ∈ docs, movieTargetFilter req.id req.movie_id d = false) →
       apiMoviesDelete (some docs) req = (errResp 404 "Not found", some docs, 1)
       ∧ (finalResponse (apiMoviesDelete (some docs) req).1 isProd).status = 404
       ∧ (finalResponse (apiMoviesDelete (some docs) req).1 isProd).status ≠ 200) := by
  constructor
  · intro h
    have hall : ∀ e ∈ emps, (fun e => decide (e._id = eid)) e = false := by
      intro e he
      simp [h e he]
    have hdel := deleteOneFirst_of_all_false _ emps hall
    refine ⟨by simp [apiEmployeesDelete, hdel], ?_, ?_⟩ <;>
      simp [apiEmployeesDelete, hdel, finalResponse, errResp, errorHandler, jsOrNat]
  · intro h hall
    have hg : (!truthy req.id && !truthy req.movie_id) = false := by
      cases ht : truthy req.id <;> cases hm : truthy req.movie_id <;> simp_all
    have hdel := deleteOneFirst_of_all_false _ docs hall
    refine ⟨by simp [apiMoviesDelete, hg, hdel], ?_, ?_⟩ <;>
      simp [apiMoviesDelete, hg, hdel, finalResponse, errResp, errorHandler, jsOrNat]

/-- C7 witness: deleting employee id 9 from a store holding only id 1,
and deleting movie_id 42 from an empty movies store, both 404. -/
theorem claim_C7_delete_missing_witness :
    (apiEmployeesDelete [⟨1, "Ann", 50000, 30⟩] 9 = (errResp 404 "Not found", [⟨1, "Ann", 50000, 30⟩])
     ∧ (finalResponse (apiEmployeesDelete [⟨1, "Ann", 50000, 30⟩] 9).1 false).status = 404
     ∧ (finalResponse (apiEmployeesDelete [⟨1, "Ann", 50000, 30⟩] 9).1 false).status ≠ 200)
  ∧ (apiMoviesDelete (some []) ⟨none, some "42", none, none, none⟩ =
       (errResp 404 "Not found", some [], 1)
     ∧ (finalResponse (apiMoviesDelete (some []) ⟨none, some "42", none, none, none⟩).1 false).status = 404
     ∧ (finalResponse (apiMoviesDelete (some []) ⟨none, some "42", none, none, none⟩).1 false).status ≠ 200) :=
  ⟨(claim_C7_delete_missing [⟨1, "Ann", 50000, 30⟩] 9 []
      ⟨none, some "42", none, none, none⟩ false).1 (by decide),
   (claim_C7_delete_missing [⟨1, "Ann", 50000, 30⟩] 9 []
      ⟨none, some "42", none, none, none⟩ false).2 (by decide) (by simp)⟩

/-- C8: the single boundary translator produces the JSON body
`{error: true, status, message, details?}` whose status equals the
condition's status code, defaulting to 500 when none is carried, with a
stack field attached exactly when not in production; the unknown-route
middleware feeds it a 404 condition. -/
theorem claim_C8_error_translator (err : ErrCond) (isProd : Bool) (m u : String) :
    (∃ eb, (errorHandler err isProd).body = Body.jsonErr eb
       ∧ eb.error = true
       ∧ eb.status = (errorHandler err isProd).status
       ∧ (err.message ≠ "" → eb.message = err.message)
       ∧ eb.details = err.details
       ∧ (eb.stack = some err.stack ↔ isProd = false)
       ∧ (eb.stack = none ↔ isProd = true))
  ∧ (∀ s, err.status = some s → s ≠ 0 → (errorHandler err isProd).status = s)
  ∧ (err.status = none → (errorHandler err isProd).status = 500)
  ∧ (notFoundErr m u).status = some 404
  ∧ (errorHandler (notFoundErr m u) isProd).status = 404 := by
  refine ⟨⟨{ error := true,
             status := jsOrNat err.status 500,
             message := jsOrStr err.message "Internal Server Error",
             details := err.details,
             stack := if !isProd then some err.stack else none },
      rfl, rfl, rfl, ?_, rfl, ?_, ?_⟩, ?_, ?_, rfl, ?_⟩
  · intro h
    simp [jsOrStr, h]
  · cases isProd <;> simp
  · cases isProd <;> simp
  · intro s hs h0
    simp [errorHandler, jsOrNat, hs, h0]
  · intro h
    simp [errorHandler, jsOrNat, h]
  · simp [errorHandler, notFoundErr, jsOrNat]

/-- C8 witness: a 404 condition keeps its status and message, and a
status-free condition defaults to 500. -/
theorem claim_C8_error_translator_witness :
    (errorHandler ⟨some 404, "Not found", none, "trace"⟩ false).status = 404
  ∧ (errorHandler ⟨none, "", none, ""⟩ true).status = 500
  ∧ ∃ eb, (errorHandler ⟨some 404, "Not found", none, "trace"⟩ false).body = Body.jsonErr eb
      ∧ eb.message = "Not found" := by
  refine ⟨(claim_C8_error_translator ⟨some 404, "Not found", none, "trace"⟩ false
      "GET" "/nope").2.1 404 rfl (by decide),
    (claim_C8_error_translator ⟨none, "", none, ""⟩ true "GET" "/nope").2.2.1 rfl, ?_⟩
  rcases (claim_C8_error_translator ⟨some 404, "Not found", none, "trace"⟩ false
      "GET" "/nope").1 with ⟨eb, h1, _, _, hm, _⟩
  exact ⟨eb, h1, hm (by decide)⟩

/-- C9: the UI show route responds 200 and renders a null movie both when
no identifier parameter is supplied and when the identifier matches no
record, whereas the REST find route signals 400 in the first situation
and 404 in the second. -/
theorem claim_C9_ui_show_lenient (docs : List Doc) (req : MovieReq) :
    (truthy req.id = false → truthy req.movie_id = false →
       uiMovieShow (some docs) req =
         (okResp 200 (Body.render "movie-view" none), some docs, 0))
  ∧ (truthy req.id = true → findById docs (getS req.id) = none →
       uiMovieShow (some docs) req =
         (okResp 200 (Body.render "movie-view" none), some docs, 1))
  ∧ (truthy req.id = false → truthy req.movie_id = true →
       List.find? (matchesMovieIdFilter (movieIdFilter (getS req.movie_id))) docs = none →
       uiMovieShow (some docs) req =
         (okResp 200 (Body.render "movie-view" none), some docs, 1))
  ∧ (truthy req.id = false → truthy req.movie_id = false → truthy req.title = false →
       (apiMoviesFind (some docs) req).1 = errResp 400 "Provide id or movie_id or title")
  ∧ (truthy req.id = false → truthy req.movie_id = true →
       List.find? (matchesMovieIdFilter (movieIdFilter (getS req.movie_id))) docs = none →
       (apiMoviesFind (some docs) req).1 = errResp 404 "Not found") := by
  refine ⟨?_, ?_, ?_, ?_, ?_⟩
  · intro h1 h2
    simp [uiMovieShow, h1, h2]
  · intro h1 h2
    simp [uiMovieShow, h1, h2]
  · intro h1 h2 h3
    simp [uiMovieShow, h1, h2, h3]
  · intro h1 h2 h3
    simp [apiMoviesFind, h1, h2, h3]
  · intro h1 h2 h3
    simp [apiMoviesFind, h1, h2, h3]

/-- C9 witness: a parameterless show, a show for the unmatched
movie_id 5, and the contrasting REST find outcomes. -/
theorem claim_C9_ui_show_lenient_witness :
    uiMovieShow (some []) ⟨none, none, none, none, none⟩ =
      (okResp 200 (Body.render "movie-view" none), some [], 0)
  ∧ uiMovieShow (some []) ⟨none, some "5", none, none, none⟩ =
      (okResp 200 (Body.render "movie-view" none), some [], 1)
  ∧ (apiMoviesFind (some []) ⟨none, none, none, none, none⟩).1 =
      errResp 400 "Provide id or movie_id or title"
  ∧ (apiMoviesFind (some []) ⟨none, some "5", none, none, none⟩).1 =
      errResp 404 "Not found" :=
  ⟨(claim_C9_ui_show_lenient [] ⟨none, none, none, none, none⟩).1 rfl rfl,
   (claim_C9_ui_show_lenient [] ⟨none, some "5", none, none, none⟩).2.2.1 rfl (by decide) rfl,
   (claim_C9_ui_show_lenient [] ⟨none, none, none, none, none⟩).2.2.2.1 rfl rfl rfl,
   (claim_C9_ui_show_lenient [] ⟨none, some "5", none, none, none⟩).2.2.2.2 rfl (by decide) rfl⟩

/-- C10 witness: a concrete valid employee create and movie create. -/
theorem claim_C10_create_responses_witness :
    apiEmployeesCreate [] 7 ⟨some "Ann", some "50000", some "30"⟩ =
      (okResp 200 (Body.emps ([] ++ [empDocOfBody 7 ⟨some "Ann", some "50000", some "30"⟩])),
       [] ++ [empDocOfBody 7 ⟨some "Ann", some "50000", some "30"⟩])
  ∧ apiMoviesCreate (some []) "m9" ⟨none, none, none, some "Dune", none⟩ =
      (okResp 201 (Body.doc (movieDocOfBody "m9"
         (sanitizeMovieBody ⟨none, none, none, some "Dune", none⟩))),
       some ([] ++ [movieDocOfBody "m9"
         (sanitizeMovieBody ⟨none, none, none, some "Dune", none⟩)]), 1) :=
  ⟨(claim_C10_create_responses [] 7 ⟨some "Ann", some "50000", some "30"⟩ [] "m9"
      ⟨none, none, none, some "Dune", none⟩).1 (by decide),
   (claim_C10_create_responses [] 7 ⟨some "Ann", some "50000", some "30"⟩ [] "m9"
      ⟨none, none, none, some "Dune", none⟩).2 (by decide)⟩

end WebAsn4
